import Mathlib

/-
Verification of the lifecycle orchestration of the go-opentelemetry-sample
service: the provider setup with rollback (setupOTelSDK), the shutdown
registry closure, and the runner (run / main) that races the HTTP listener
against interrupt-driven cancellation.

The embedding is an event-trace semantics.  The program is parameterized by
the outcome of each provider factory (fail) and of each provider shutdown
operation (sdErr); Go error values are modelled as lists of error messages,
with [] standing for nil and list append for errors.Join.
-/

namespace OtelDice

/-- The four telemetry providers constructed by setupOTelSDK, in construction
order: tracerProvider, meterProvider (push), promMeterProvider (pull),
loggerProvider. -/
inductive Prov where
  | tracerProvider
  | meterProvider
  | promMeterProvider
  | loggerProvider
deriving DecidableEq, Fintype

/-- Contexts observable in the program: the signal.NotifyContext-derived
cancellation context of run, and context.Background(). -/
inductive Ctx where
  | sigCtx
  | background
deriving DecidableEq, Fintype

/-- Observable events of a program execution, in order of occurrence. -/
inductive Event where
  | setPropagator
  | factoryCall (p : Prov)
  | registerShutdown (p : Prov)
  | setTracer (p : Prov)
  | setMeter (p : Prov)
  | setLogger (p : Prov)
  | shutdownCall (p : Prov) (c : Ctx)
  | listenAndServe
  | stopCall
  | srvShutdownCall (c : Ctx)
  | drainCall (c : Ctx)
deriving DecidableEq

/-- One iteration of the loop in the shutdown closure of setupOTelSDK:
invoke fn(ctx) (recording the event) and join its error onto the
accumulator, mirroring err = errors.Join(err, fn(ctx)). -/
def shutdownStep (sdErr : Prov → Option String) (c : Ctx)
    (acc : List Event × List String) (p : Prov) : List Event × List String :=
  (acc.1 ++ [Event.shutdownCall p c], acc.2 ++ (sdErr p).toList)

/-- Result of invoking the shutdown closure: the events it produced, the
joined error it returned, and the value of the captured shutdownFuncs
variable afterwards. -/
structure ShutdownRun where
  events : List Event
  err : List String
  funcs : List Prov
deriving DecidableEq

/-- The shutdown closure of setupOTelSDK: iterates the registered
shutdownFuncs in order, joining all errors, then sets shutdownFuncs = nil. -/
def shutdown (sdErr : Prov → Option String) (funcs : List Prov) (c : Ctx) :
    ShutdownRun :=
  let r := funcs.foldl (shutdownStep sdErr c) ([], [])
  { events := r.1, err := r.2, funcs := [] }

/-- Result of setupOTelSDK: the events it produced, the returned error
(nil = []), the shutdownFuncs captured by the returned closure, whether the
returned shutdown function is the nil function, and the final contents of
the three global provider slots. -/
structure SetupResult where
  events : List Event
  retErr : List String
  funcs : List Prov
  shutdownNil : Bool
  tracerSlot : Option Prov
  meterSlot : Option Prov
  loggerSlot : Option Prov
deriving DecidableEq

/-- setupOTelSDK: sets the propagator, then sequentially constructs the
tracer, push meter, Prometheus (pull) meter and logger providers.  Each
success appends the provider shutdown to shutdownFuncs and publishes the
provider to its global slot; each failure runs handleErr, which joins the
construction error with shutdown(ctx) over everything registered so far
(clearing shutdownFuncs) and returns.  The named return shutdown is
assigned before any failure can occur, so it is never nil. -/
def setupOTelSDK (c : Ctx) (fail sdErr : Prov → Option String) : SetupResult :=
  let ev0 : List Event := [.setPropagator, .factoryCall .tracerProvider]
  match fail .tracerProvider with
  | some m =>
      let d := shutdown sdErr [] c
      { events := ev0 ++ d.events, retErr := m :: d.err, funcs := d.funcs,
        shutdownNil := false,
        tracerSlot := none, meterSlot := none, loggerSlot := none }
  | none =>
      let fs1 : List Prov := [.tracerProvider]
      let ev1 := ev0 ++ [.registerShutdown .tracerProvider,
                         .setTracer .tracerProvider,
                         .factoryCall .meterProvider]
      match fail .meterProvider with
      | some m =>
          let d := shutdown sdErr fs1 c
          { events := ev1 ++ d.events, retErr := m :: d.err, funcs := d.funcs,
            shutdownNil := false,
            tracerSlot := some .tracerProvider, meterSlot := none,
            loggerSlot := none }
      | none =>
          let fs2 := fs1 ++ [.meterProvider]
          let ev2 := ev1 ++ [.registerShutdown .meterProvider,
                             .setMeter .meterProvider,
                             .factoryCall .promMeterProvider]
          match fail .promMeterProvider with
          | some m =>
              let d := shutdown sdErr fs2 c
              { events := ev2 ++ d.events, retErr := m :: d.err,
                funcs := d.funcs, shutdownNil := false,
                tracerSlot := some .tracerProvider,
                meterSlot := some .meterProvider, loggerSlot := none }
          | none =>
              let fs3 := fs2 ++ [.promMeterProvider]
              let ev3 := ev2 ++ [.registerShutdown .promMeterProvider,
                                 .setMeter .promMeterProvider,
                                 .factoryCall .loggerProvider]
              match fail .loggerProvider with
              | some m =>
                  let d := shutdown sdErr fs3 c
                  { events := ev3 ++ d.events, retErr := m :: d.err,
                    funcs := d.funcs, shutdownNil := false,
                    tracerSlot := some .tracerProvider,
                    meterSlot := some .promMeterProvider, loggerSlot := none }
              | none =>
                  let fs4 := fs3 ++ [.loggerProvider]
                  let ev4 := ev3 ++ [.registerShutdown .loggerProvider,
                                     .setLogger .loggerProvider]
                  { events := ev4, retErr := [], funcs := fs4,
                    shutdownNil := false,
                    tracerSlot := some .tracerProvider,
                    meterSlot := some .promMeterProvider,
                    loggerSlot := some .loggerProvider }

/-- Construction index of a provider in setupOTelSDK. -/
def idx : Prov → Nat
  | .tracerProvider => 0
  | .meterProvider => 1
  | .promMeterProvider => 2
  | .loggerProvider => 3

/-- The providers constructed strictly before a given provider. -/
def before : Prov → List Prov
  | .tracerProvider => []
  | .meterProvider => [.tracerProvider]
  | .promMeterProvider => [.tracerProvider, .meterProvider]
  | .loggerProvider => [.tracerProvider, .meterProvider, .promMeterProvider]

/-- Outcome of the race in run between the listener goroutine delivering an
error on srvErr and the cancellation context firing (interrupt). -/
inductive RaceOutcome where
  | listenerErr (e : String)
  | interrupted
deriving DecidableEq

/-- Configuration of the http.Server value constructed by run. -/
structure ServerConfig where
  addr : String
  baseCtx : Ctx
  readTimeoutMillis : Nat
  writeTimeoutMillis : Nat
deriving DecidableEq

/-- The http.Server literal in run: Addr ":8080", BaseContext returning the
cancellation context, ReadTimeout one second, WriteTimeout ten seconds. -/
def mkServer (c : Ctx) : ServerConfig :=
  { addr := ":8080", baseCtx := c,
    readTimeoutMillis := 1000, writeTimeoutMillis := 10000 }

/-- Result of run: the events it produced, the returned error (nil = []),
and the server it constructed, if setup got that far. -/
structure RunResult where
  events : List Event
  retErr : List String
  srv : Option ServerConfig
deriving DecidableEq

/-- run: creates the signal context (deferring stop), calls setupOTelSDK
and returns its error if non-nil; otherwise defers the drain
otelShutdown(context.Background()) joined onto err, starts ListenAndServe
on a goroutine, and selects between a listener error (return it, no
graceful shutdown) and the context firing (stop immediately, then
srv.Shutdown(context.Background())).  Deferred functions run in LIFO order
at every return: drain first, then stop. -/
def run (fail sdErr : Prov → Option String) (srvShutErr : Option String)
    (race : RaceOutcome) : RunResult :=
  let s := setupOTelSDK .sigCtx fail sdErr
  match s.retErr with
  | _ :: _ =>
      { events := s.events ++ [.stopCall], retErr := s.retErr, srv := none }
  | [] =>
      let srv := mkServer .sigCtx
      match race with
      | .listenerErr e =>
          let d := shutdown sdErr s.funcs .background
          { events := s.events ++ [.listenAndServe, .drainCall .background]
                        ++ d.events ++ [.stopCall],
            retErr := e :: d.err, srv := some srv }
      | .interrupted =>
          let d := shutdown sdErr s.funcs .background
          { events := s.events ++ [.listenAndServe, .stopCall,
                        .srvShutdownCall .background, .drainCall .background]
                        ++ d.events ++ [.stopCall],
            retErr := srvShutErr.toList ++ d.err, srv := some srv }

/-- Observable outcome of main: the process exit code and what was logged
by log.Fatalln, if anything. -/
structure MainResult where
  exitCode : Nat
  logged : Option (List String)
deriving DecidableEq

/-- main: calls run and, if it returned a non-nil error, logs it via
log.Fatalln and exits with status 1; otherwise returns normally (exit 0). -/
def main (fail sdErr : Prov → Option String) (srvShutErr : Option String)
    (race : RaceOutcome) : MainResult :=
  match (run fail sdErr srvShutErr race).retErr with
  | [] => { exitCode := 0, logged := none }
  | e :: es => { exitCode := 1, logged := some (e :: es) }

/-- Closed form of the loop inside the shutdown closure. -/
theorem foldl_shutdownStep (sdErr : Prov → Option String) (c : Ctx)
    (funcs : List Prov) (acc : List Event × List String) :
    funcs.foldl (shutdownStep sdErr c) acc =
      (acc.1 ++ funcs.map (fun p => Event.shutdownCall p c),
       acc.2 ++ funcs.filterMap sdErr) := by
  induction funcs generalizing acc with
  | nil => simp
  | cons p ps ih =>
      rw [List.foldl_cons, ih]
      cases h : sdErr p <;>
        simp [shutdownStep, h, List.filterMap_cons]

/-- Closed form of the shutdown closure: one shutdownCall event per
registered provider in FIFO order, the joined error of all of them, and
an empty registry afterwards. -/
theorem shutdown_eq (sdErr : Prov → Option String) (funcs : List Prov)
    (c : Ctx) :
    shutdown sdErr funcs c =
      { events := funcs.map (fun p => Event.shutdownCall p c),
        err := funcs.filterMap sdErr, funcs := [] } := by
  simp [shutdown, foldl_shutdownStep]

/-- The registration order of the four providers on the all-success path. -/
def allProvs : List Prov :=
  [.tracerProvider, .meterProvider, .promMeterProvider, .loggerProvider]

/-- Closed form of setupOTelSDK when every factory succeeds. -/
theorem setup_ok_eq (c : Ctx) (fail sdErr : Prov → Option String)
    (hok : ∀ p, fail p = none) :
    setupOTelSDK c fail sdErr =
      { events := [.setPropagator, .factoryCall .tracerProvider,
                   .registerShutdown .tracerProvider,
                   .setTracer .tracerProvider,
                   .factoryCall .meterProvider,
                   .registerShutdown .meterProvider,
                   .setMeter .meterProvider,
                   .factoryCall .promMeterProvider,
                   .registerShutdown .promMeterProvider,
                   .setMeter .promMeterProvider,
                   .factoryCall .loggerProvider,
                   .registerShutdown .loggerProvider,
                   .setLogger .loggerProvider],
        retErr := [], funcs := allProvs, shutdownNil := false,
        tracerSlot := some .tracerProvider,
        meterSlot := some .promMeterProvider,
        loggerSlot := some .loggerProvider } := by
  simp [setupOTelSDK, hok .tracerProvider, hok .meterProvider,
        hok .promMeterProvider, hok .loggerProvider, allProvs]

/-- Closed form of run on the interrupt path after a fully successful
setup. -/
theorem run_interrupted_eq (fail sdErr : Prov → Option String)
    (srvShutErr : Option String) (hok : ∀ p, fail p = none) :
    run fail sdErr srvShutErr .interrupted =
      { events := [.setPropagator, .factoryCall .tracerProvider,
                   .registerShutdown .tracerProvider,
                   .setTracer .tracerProvider,
                   .factoryCall .meterProvider,
                   .registerShutdown .meterProvider,
                   .setMeter .meterProvider,
                   .factoryCall .promMeterProvider,
                   .registerShutdown .promMeterProvider,
                   .setMeter .promMeterProvider,
                   .factoryCall .loggerProvider,
                   .registerShutdown .loggerProvider,
                   .setLogger .loggerProvider,
                   .listenAndServe, .stopCall,
                   .srvShutdownCall .background, .drainCall .background,
                   .shutdownCall .tracerProvider .background,
                   .shutdownCall .meterProvider .background,
                   .shutdownCall .promMeterProvider .background,
                   .shutdownCall .loggerProvider .background,
                   .stopCall],
        retErr := srvShutErr.toList ++ allProvs.filterMap sdErr,
        srv := some (mkServer .sigCtx) } := by
  rw [run, setup_ok_eq .sigCtx fail sdErr hok]
  simp [shutdown_eq, allProvs]

/-- Closed form of run on the listener-error path after a fully successful
setup. -/
theorem run_listener_err_eq (fail sdErr : Prov → Option String)
    (srvShutErr : Option String) (e : String) (hok : ∀ p, fail p = none) :
    run fail sdErr srvShutErr (.listenerErr e) =
      { events := [.setPropagator, .factoryCall .tracerProvider,
                   .registerShutdown .tracerProvider,
                   .setTracer .tracerProvider,
                   .factoryCall .meterProvider,
                   .registerShutdown .meterProvider,
                   .setMeter .meterProvider,
                   .factoryCall .promMeterProvider,
                   .registerShutdown .promMeterProvider,
                   .setMeter .promMeterProvider,
                   .factoryCall .loggerProvider,
                   .registerShutdown .loggerProvider,
                   .setLogger .loggerProvider,
                   .listenAndServe, .drainCall .background,
                   .shutdownCall .tracerProvider .background,
                   .shutdownCall .meterProvider .background,
                   .shutdownCall .promMeterProvider .background,
                   .shutdownCall .loggerProvider .background,
                   .stopCall],
        retErr := e :: allProvs.filterMap sdErr,
        srv := some (mkServer .sigCtx) } := by
  rw [run, setup_ok_eq .sigCtx fail sdErr hok]
  simp [shutdown_eq, allProvs]

/-- Closed form of setupOTelSDK when the tracer provider factory fails. -/
theorem setup_fail_tracer_eq (c : Ctx) (fail sdErr : Prov → Option String)
    (msg : String) (h : fail Prov.tracerProvider = some msg) :
    setupOTelSDK c fail sdErr =
      { events := [.setPropagator, .factoryCall .tracerProvider],
        retErr := [msg], funcs := [], shutdownNil := false,
        tracerSlot := none, meterSlot := none, loggerSlot := none } := by
  simp [setupOTelSDK, h, shutdown_eq]

/-- Closed form of setupOTelSDK when the push meter provider factory fails
after a successful tracer provider. -/
theorem setup_fail_meter_eq (c : Ctx) (fail sdErr : Prov → Option String)
    (msg : String) (h0 : fail Prov.tracerProvider = none)
    (h1 : fail Prov.meterProvider = some msg) :
    setupOTelSDK c fail sdErr =
      { events := [.setPropagator, .factoryCall .tracerProvider,
                   .registerShutdown .tracerProvider,
                   .setTracer .tracerProvider,
                   .factoryCall .meterProvider,
                   .shutdownCall .tracerProvider c],
        retErr := msg :: [Prov.tracerProvider].filterMap sdErr,
        funcs := [], shutdownNil := false,
        tracerSlot := some .tracerProvider, meterSlot := none,
        loggerSlot := none } := by
  simp [setupOTelSDK, h0, h1, shutdown_eq]

/-- Closed form of setupOTelSDK when the Prometheus meter provider factory
fails after successful tracer and push meter providers. -/
theorem setup_fail_prom_eq (c : Ctx) (fail sdErr : Prov → Option String)
    (msg : String) (h0 : fail Prov.tracerProvider = none)
    (h1 : fail Prov.meterProvider = none)
    (h2 : fail Prov.promMeterProvider = some msg) :
    setupOTelSDK c fail sdErr =
      { events := [.setPropagator, .factoryCall .tracerProvider,
                   .registerShutdown .tracerProvider,
                   .setTracer .tracerProvider,
                   .factoryCall .meterProvider,
                   .registerShutdown .meterProvider,
                   .setMeter .meterProvider,
                   .factoryCall .promMeterProvider,
                   .shutdownCall .tracerProvider c,
                   .shutdownCall .meterProvider c],
        retErr := msg :: [Prov.tracerProvider, Prov.meterProvider].filterMap sdErr,
        funcs := [], shutdownNil := false,
        tracerSlot := some .tracerProvider, meterSlot := some .meterProvider,
        loggerSlot := none } := by
  simp [setupOTelSDK, h0, h1, h2, shutdown_eq]

/-- Closed form of setupOTelSDK when the logger provider factory fails
after the three successful metric and trace providers. -/
theorem setup_fail_logger_eq (c : Ctx) (fail sdErr : Prov → Option String)
    (msg : String) (h0 : fail Prov.tracerProvider = none)
    (h1 : fail Prov.meterProvider = none)
    (h2 : fail Prov.promMeterProvider = none)
    (h3 : fail Prov.loggerProvider = some msg) :
    setupOTelSDK c fail sdErr =
      { events := [.setPropagator, .factoryCall .tracerProvider,
                   .registerShutdown .tracerProvider,
                   .setTracer .tracerProvider,
                   .factoryCall .meterProvider,
                   .registerShutdown .meterProvider,
                   .setMeter .meterProvider,
                   .factoryCall .promMeterProvider,
                   .registerShutdown .promMeterProvider,
                   .setMeter .promMeterProvider,
                   .factoryCall .loggerProvider,
                   .shutdownCall .tracerProvider c,
                   .shutdownCall .meterProvider c,
                   .shutdownCall .promMeterProvider c],
        retErr := msg :: [Prov.tracerProvider, Prov.meterProvider,
                          Prov.promMeterProvider].filterMap sdErr,
        funcs := [], shutdownNil := false,
        tracerSlot := some .tracerProvider,
        meterSlot := some .promMeterProvider,
        loggerSlot := none } := by
  simp [setupOTelSDK, h0, h1, h2, h3, shutdown_eq]

/-- The named return shutdown of setupOTelSDK is assigned before any
factory can fail, hence never nil, on every path. -/
theorem setup_shutdownNil_false (c : Ctx) (g h : Prov → Option String) :
    (setupOTelSDK c g h).shutdownNil = false := by
  cases h0 : g Prov.tracerProvider with
  | some m => simp [setupOTelSDK, h0]
  | none =>
    cases h1 : g Prov.meterProvider with
    | some m => simp [setupOTelSDK, h0, h1]
    | none =>
      cases h2 : g Prov.promMeterProvider with
      | some m => simp [setupOTelSDK, h0, h1, h2]
      | none =>
        cases h3 : g Prov.loggerProvider with
        | some m => simp [setupOTelSDK, h0, h1, h2, h3]
        | none => simp [setupOTelSDK, h0, h1, h2, h3]

/-- On every failure path of setupOTelSDK, handleErr has already drained and
cleared shutdownFuncs, so the captured registry is empty at return. -/
theorem setup_fail_funcs_nil (c : Ctx) (fail sdErr : Prov → Option String)
    (hfail : (setupOTelSDK c fail sdErr).retErr ≠ []) :
    (setupOTelSDK c fail sdErr).funcs = [] := by
  cases h0 : fail Prov.tracerProvider with
  | some m => rw [setup_fail_tracer_eq c fail sdErr m h0]
  | none =>
    cases h1 : fail Prov.meterProvider with
    | some m => rw [setup_fail_meter_eq c fail sdErr m h0 h1]
    | none =>
      cases h2 : fail Prov.promMeterProvider with
      | some m => rw [setup_fail_prom_eq c fail sdErr m h0 h1 h2]
      | none =>
        cases h3 : fail Prov.loggerProvider with
        | some m => rw [setup_fail_logger_eq c fail sdErr m h0 h1 h2 h3]
        | none =>
          have hok : ∀ p, fail p = none := by
            intro p; cases p <;> assumption
          rw [setup_ok_eq c fail sdErr hok] at hfail
          exact absurd rfl hfail

/-- When setupOTelSDK fails, run returns before registering the drain defer,
and its returned error is exactly the setup error. -/
theorem run_setup_fail_eq (fail sdErr : Prov → Option String)
    (srvShutErr : Option String) (race : RaceOutcome) (m : String)
    (ms : List String)
    (hs : (setupOTelSDK Ctx.sigCtx fail sdErr).retErr = m :: ms) :
    run fail sdErr srvShutErr race =
      { events := (setupOTelSDK Ctx.sigCtx fail sdErr).events ++ [.stopCall],
        retErr := m :: ms, srv := none } := by
  simp [run, hs]

/-- main exits 1 and logs the joined error when run returns a non-nil error. -/
theorem main_of_run_err (fail sdErr : Prov → Option String)
    (srvShutErr : Option String) (race : RaceOutcome)
    (h : (run fail sdErr srvShutErr race).retErr ≠ []) :
    main fail sdErr srvShutErr race =
      { exitCode := 1,
        logged := some (run fail sdErr srvShutErr race).retErr } := by
  rcases hr : (run fail sdErr srvShutErr race).retErr with _ | ⟨a, as⟩
  · exact absurd hr h
  · simp [main, hr]

/-- main exits 0 and logs nothing when run returns nil. -/
theorem main_of_run_ok (fail sdErr : Prov → Option String)
    (srvShutErr : Option String) (race : RaceOutcome)
    (h : (run fail sdErr srvShutErr race).retErr = []) :
    main fail sdErr srvShutErr race = { exitCode := 0, logged := none } := by
  simp [main, h]

/-- True exactly on drainCall events, in any context. -/
def isDrainEvent : Event → Bool
  | .drainCall _ => true
  | _ => false

/-- An outcome assignment under which nothing fails. -/
def noErr : Prov → Option String := fun _ => none

/-- A factory outcome where only the push meter provider factory fails. -/
def failMeterOnly : Prov → Option String := fun p =>
  match p with
  | .meterProvider => some "stdoutmetric init failed"
  | _ => none

/-- A factory outcome where the tracer provider factory fails. -/
def failTracerOnly : Prov → Option String := fun p =>
  match p with
  | .tracerProvider => some "stdouttrace init failed"
  | _ => none

/-- Claim C1: if the K-th factory inside setupOTelSDK fails (the earlier
ones having succeeded), the shutdown operations of providers 1..K-1 are
each invoked exactly once before setupOTelSDK returns, no factory after K
is invoked, and the returned error joins the construction failure of K with
the errors of those shutdown invocations. -/
theorem setup_rollback_on_factory_failure
    (c : Ctx) (fail sdErr : Prov → Option String) (K : Prov) (msg : String)
    (hK : fail K = some msg) (hprev : ∀ j ∈ before K, fail j = none) :
    (∀ j ∈ before K,
      (setupOTelSDK c fail sdErr).events.count (Event.shutdownCall j c) = 1) ∧
    (∀ j : Prov, idx K < idx j →
      Event.factoryCall j ∉ (setupOTelSDK c fail sdErr).events) ∧
    (setupOTelSDK c fail sdErr).retErr = msg :: (before K).filterMap sdErr := by
  cases K with
  | tracerProvider =>
      rw [setup_fail_tracer_eq c fail sdErr msg hK]
      refine ⟨?_, ?_, rfl⟩ <;> dsimp only <;> cases c <;> decide
  | meterProvider =>
      have h0 : fail Prov.tracerProvider = none := hprev _ (by simp [before])
      rw [setup_fail_meter_eq c fail sdErr msg h0 hK]
      refine ⟨?_, ?_, rfl⟩ <;> dsimp only <;> cases c <;> decide
  | promMeterProvider =>
      have h0 : fail Prov.tracerProvider = none := hprev _ (by simp [before])
      have h1 : fail Prov.meterProvider = none := hprev _ (by simp [before])
      rw [setup_fail_prom_eq c fail sdErr msg h0 h1 hK]
      refine ⟨?_, ?_, rfl⟩ <;> dsimp only <;> cases c <;> decide
  | loggerProvider =>
      have h0 : fail Prov.tracerProvider = none := hprev _ (by simp [before])
      have h1 : fail Prov.meterProvider = none := hprev _ (by simp [before])
      have h2 : fail Prov.promMeterProvider = none := hprev _ (by simp [before])
      rw [setup_fail_logger_eq c fail sdErr msg h0 h1 h2 hK]
      refine ⟨?_, ?_, rfl⟩ <;> dsimp only <;> cases c <;> decide

/-- Witness for the rollback theorem: the push meter factory fails, the
tracer shutdown runs exactly once, the later factories never run, and the
error is the joined failure. -/
theorem setup_rollback_on_factory_failure_witness :
    failMeterOnly Prov.meterProvider = some "stdoutmetric init failed" ∧
    (∀ j ∈ before Prov.meterProvider, failMeterOnly j = none) ∧
    ((∀ j ∈ before Prov.meterProvider,
      (setupOTelSDK Ctx.sigCtx failMeterOnly noErr).events.count
        (Event.shutdownCall j Ctx.sigCtx) = 1) ∧
     (∀ j : Prov, idx Prov.meterProvider < idx j →
      Event.factoryCall j ∉ (setupOTelSDK Ctx.sigCtx failMeterOnly noErr).events) ∧
     (setupOTelSDK Ctx.sigCtx failMeterOnly noErr).retErr =
       "stdoutmetric init failed" :: (before Prov.meterProvider).filterMap noErr) :=
  ⟨rfl, by decide,
   setup_rollback_on_factory_failure Ctx.sigCtx failMeterOnly noErr
     Prov.meterProvider "stdoutmetric init failed" rfl (by decide)⟩

/-- Claim C2: the drain closure invokes every registered shutdown operation
in FIFO registration order, passes the same context to each, and returns the
join of all their errors; every operation runs even when an earlier one
returned an error. -/
theorem drain_fifo_joins_all_errors (sdErr : Prov → Option String)
    (funcs : List Prov) (c : Ctx) :
    (shutdown sdErr funcs c).events =
      funcs.map (fun p => Event.shutdownCall p c) ∧
    (∀ p ∈ funcs,
      Event.shutdownCall p c ∈ (shutdown sdErr funcs c).events) ∧
    (shutdown sdErr funcs c).err = funcs.filterMap sdErr := by
  refine ⟨by simp [shutdown_eq], ?_, by simp [shutdown_eq]⟩
  intro p hp
  rw [shutdown_eq]
  exact List.mem_map_of_mem _ hp

/-- Claim C3: invoking the drain closure twice in sequence, the first
invocation runs every registered operation and returns their joined result;
the second runs zero operations and returns nil, because the first empties
the registry. -/
theorem drain_twice_second_noop (sdErr : Prov → Option String)
    (funcs : List Prov) (c cc : Ctx) :
    (shutdown sdErr funcs c).events =
      funcs.map (fun p => Event.shutdownCall p c) ∧
    (shutdown sdErr funcs c).err = funcs.filterMap sdErr ∧
    (shutdown sdErr (shutdown sdErr funcs c).funcs cc).events = [] ∧
    (shutdown sdErr (shutdown sdErr funcs c).funcs cc).err = [] := by
  simp [shutdown_eq]

/-- Claim C4: on the interrupt path of run, the interrupt listener is
disarmed (stop) before the graceful server shutdown, the telemetry drain
runs exactly once and only after the server shutdown, and the error run
returns is the join of the server shutdown error and the drain errors: the
ErrServerClosed outcome of the listener never contributes to it. -/
theorem run_interrupt_shutdown_order (fail sdErr : Prov → Option String)
    (srvShutErr : Option String) (hok : ∀ p, fail p = none) :
    ((run fail sdErr srvShutErr .interrupted).events.countP isDrainEvent = 1) ∧
    ((run fail sdErr srvShutErr .interrupted).events.indexOf Event.stopCall <
      (run fail sdErr srvShutErr .interrupted).events.indexOf
        (Event.srvShutdownCall Ctx.background)) ∧
    ((run fail sdErr srvShutErr .interrupted).events.indexOf
        (Event.srvShutdownCall Ctx.background) <
      (run fail sdErr srvShutErr .interrupted).events.indexOf
        (Event.drainCall Ctx.background)) ∧
    (run fail sdErr srvShutErr .interrupted).retErr =
      srvShutErr.toList ++ allProvs.filterMap sdErr := by
  rw [run_interrupted_eq fail sdErr srvShutErr hok]
  refine ⟨?_, ?_, ?_, rfl⟩ <;> dsimp only <;> decide

/-- Witness for the interrupt-path theorem: with nothing failing, the drain
runs once after the server shutdown and run returns nil. -/
theorem run_interrupt_shutdown_order_witness :
    (∀ p, noErr p = none) ∧
    (((run noErr noErr none .interrupted).events.countP isDrainEvent = 1) ∧
     ((run noErr noErr none .interrupted).events.indexOf Event.stopCall <
       (run noErr noErr none .interrupted).events.indexOf
         (Event.srvShutdownCall Ctx.background)) ∧
     ((run noErr noErr none .interrupted).events.indexOf
         (Event.srvShutdownCall Ctx.background) <
       (run noErr noErr none .interrupted).events.indexOf
         (Event.drainCall Ctx.background)) ∧
     (run noErr noErr none .interrupted).retErr =
       (none : Option String).toList ++ allProvs.filterMap noErr) :=
  ⟨fun _ => rfl,
   run_interrupt_shutdown_order noErr noErr none (fun _ => rfl)⟩

/-- Claim C5: when the listener fails before the cancellation context fires,
run returns that listener error without invoking the graceful server
shutdown, and the telemetry drain still runs exactly once on that path. -/
theorem run_listener_error_path (fail sdErr : Prov → Option String)
    (srvShutErr : Option String) (e : String) (hok : ∀ p, fail p = none) :
    (∀ c, Event.srvShutdownCall c ∉
      (run fail sdErr srvShutErr (.listenerErr e)).events) ∧
    ((run fail sdErr srvShutErr (.listenerErr e)).events.countP
      isDrainEvent = 1) ∧
    (run fail sdErr srvShutErr (.listenerErr e)).retErr =
      e :: allProvs.filterMap sdErr := by
  rw [run_listener_err_eq fail sdErr srvShutErr e hok]
  refine ⟨?_, ?_, rfl⟩ <;> dsimp only <;> decide

/-- Witness for the listener-error theorem at a concrete bind failure. -/
theorem run_listener_error_path_witness :
    (∀ p, noErr p = none) ∧
    ((∀ c, Event.srvShutdownCall c ∉
       (run noErr noErr none (.listenerErr "bind: address already in use")).events) ∧
     ((run noErr noErr none
        (.listenerErr "bind: address already in use")).events.countP
        isDrainEvent = 1) ∧
     (run noErr noErr none
        (.listenerErr "bind: address already in use")).retErr =
       "bind: address already in use" :: allProvs.filterMap noErr) :=
  ⟨fun _ => rfl,
   run_listener_error_path noErr noErr none
     "bind: address already in use" (fun _ => rfl)⟩

/-- Claim C6: after a fully successful setupOTelSDK, the global metric slot
holds the Prometheus (pull) meter provider, installed after and replacing
the push meter provider, while the push meter provider stays registered in
shutdownFuncs and is still invoked by the drain. -/
theorem meter_slot_last_installed_wins (c : Ctx)
    (fail sdErr : Prov → Option String) (hok : ∀ p, fail p = none) :
    (setupOTelSDK c fail sdErr).meterSlot = some Prov.promMeterProvider ∧
    (setupOTelSDK c fail sdErr).meterSlot ≠ some Prov.meterProvider ∧
    Event.setMeter Prov.meterProvider ∈ (setupOTelSDK c fail sdErr).events ∧
    ((setupOTelSDK c fail sdErr).events.indexOf
        (Event.setMeter Prov.meterProvider) <
      (setupOTelSDK c fail sdErr).events.indexOf
        (Event.setMeter Prov.promMeterProvider)) ∧
    Prov.meterProvider ∈ (setupOTelSDK c fail sdErr).funcs ∧
    (∀ cc, Event.shutdownCall Prov.meterProvider cc ∈
      (shutdown sdErr (setupOTelSDK c fail sdErr).funcs cc).events) := by
  rw [setup_ok_eq c fail sdErr hok]
  refine ⟨rfl, by decide, by decide, by decide, by decide, ?_⟩
  intro cc
  rw [shutdown_eq]
  exact List.mem_map_of_mem _ (by decide)

/-- Witness for the metric-slot theorem at the all-success configuration. -/
theorem meter_slot_last_installed_wins_witness :
    (∀ p, noErr p = none) ∧
    ((setupOTelSDK Ctx.sigCtx noErr noErr).meterSlot =
        some Prov.promMeterProvider ∧
     (setupOTelSDK Ctx.sigCtx noErr noErr).meterSlot ≠
        some Prov.meterProvider ∧
     Event.setMeter Prov.meterProvider ∈
        (setupOTelSDK Ctx.sigCtx noErr noErr).events ∧
     ((setupOTelSDK Ctx.sigCtx noErr noErr).events.indexOf
         (Event.setMeter Prov.meterProvider) <
       (setupOTelSDK Ctx.sigCtx noErr noErr).events.indexOf
         (Event.setMeter Prov.promMeterProvider)) ∧
     Prov.meterProvider ∈ (setupOTelSDK Ctx.sigCtx noErr noErr).funcs ∧
     (∀ cc, Event.shutdownCall Prov.meterProvider cc ∈
       (shutdown noErr (setupOTelSDK Ctx.sigCtx noErr noErr).funcs cc).events)) :=
  ⟨fun _ => rfl,
   meter_slot_last_installed_wins Ctx.sigCtx noErr noErr (fun _ => rfl)⟩

/-- Claim C7: main exits 1 and logs the joined error exactly when run
returns a non-nil error, which happens whenever a startup phase fails or
the final drain reports failure; it exits 0 with nothing logged on a clean
interrupt-driven shutdown with every operation succeeding. -/
theorem main_exit_code_policy (fail sdErr : Prov → Option String)
    (srvShutErr : Option String) (race : RaceOutcome) :
    ((main fail sdErr srvShutErr race).exitCode = 0 ↔
      (run fail sdErr srvShutErr race).retErr = []) ∧
    ((main fail sdErr srvShutErr race).exitCode ≠ 0 →
      (main fail sdErr srvShutErr race).exitCode = 1 ∧
      (main fail sdErr srvShutErr race).logged =
        some (run fail sdErr srvShutErr race).retErr) ∧
    ((setupOTelSDK Ctx.sigCtx fail sdErr).retErr ≠ [] →
      (main fail sdErr srvShutErr race).exitCode = 1 ∧
      (main fail sdErr srvShutErr race).logged =
        some (setupOTelSDK Ctx.sigCtx fail sdErr).retErr) ∧
    ((∀ p, fail p = none) → (∃ p msg, sdErr p = some msg) →
      (main fail sdErr srvShutErr RaceOutcome.interrupted).exitCode = 1) ∧
    ((∀ p, fail p = none) → (∀ p, sdErr p = none) → srvShutErr = none →
      (main fail sdErr srvShutErr RaceOutcome.interrupted).exitCode = 0 ∧
      (main fail sdErr srvShutErr RaceOutcome.interrupted).logged = none) := by
  refine ⟨?_, ?_, ?_, ?_, ?_⟩
  · rcases hr : (run fail sdErr srvShutErr race).retErr with _ | ⟨a, as⟩
    · rw [main_of_run_ok fail sdErr srvShutErr race hr]
      simp
    · rw [main_of_run_err fail sdErr srvShutErr race (by simp [hr])]
      simp [hr]
  · intro hne
    rcases hr : (run fail sdErr srvShutErr race).retErr with _ | ⟨a, as⟩
    · rw [main_of_run_ok fail sdErr srvShutErr race hr] at hne
      exact absurd rfl hne
    · rw [main_of_run_err fail sdErr srvShutErr race (by simp [hr])]
      simp [hr]
  · intro hs
    rcases hs2 : (setupOTelSDK Ctx.sigCtx fail sdErr).retErr with _ | ⟨m, ms⟩
    · exact absurd hs2 hs
    · have hrun := run_setup_fail_eq fail sdErr srvShutErr race m ms hs2
      have hne : (run fail sdErr srvShutErr race).retErr ≠ [] := by
        rw [hrun]; simp
      rw [main_of_run_err fail sdErr srvShutErr race hne, hrun]
      exact ⟨rfl, rfl⟩
  · intro hok hex
    have hne : (run fail sdErr srvShutErr RaceOutcome.interrupted).retErr ≠ [] := by
      rw [run_interrupted_eq fail sdErr srvShutErr hok]
      rcases hex with ⟨p, msg, hp⟩
      intro hnil
      dsimp only at hnil
      rw [List.append_eq_nil] at hnil
      rw [List.filterMap_eq_nil_iff] at hnil
      have := hnil.2 p (by cases p <;> simp [allProvs])
      rw [hp] at this
      cases this
    rw [main_of_run_err fail sdErr srvShutErr RaceOutcome.interrupted hne]
  · intro hok hsd hsrv
    have hnil : (run fail sdErr srvShutErr RaceOutcome.interrupted).retErr = [] := by
      rw [run_interrupted_eq fail sdErr srvShutErr hok, hsrv]
      dsimp only
      simp [allProvs, hsd Prov.tracerProvider, hsd Prov.meterProvider,
            hsd Prov.promMeterProvider, hsd Prov.loggerProvider]
    rw [main_of_run_ok fail sdErr srvShutErr RaceOutcome.interrupted hnil]
    exact ⟨rfl, rfl⟩

/-- Claim C8: the http.Server built by run uses the interrupt-derived
cancellation context as the base context of every connection, binds :8080
and has a one second read timeout, strictly shorter than its ten second
write timeout. -/
theorem server_base_ctx_and_timeouts (fail sdErr : Prov → Option String)
    (srvShutErr : Option String) (race : RaceOutcome)
    (hok : ∀ p, fail p = none) :
    (run fail sdErr srvShutErr race).srv = some (mkServer Ctx.sigCtx) ∧
    (mkServer Ctx.sigCtx).baseCtx = Ctx.sigCtx ∧
    (mkServer Ctx.sigCtx).addr = ":8080" ∧
    (mkServer Ctx.sigCtx).readTimeoutMillis = 1000 ∧
    (mkServer Ctx.sigCtx).writeTimeoutMillis = 10000 ∧
    (mkServer Ctx.sigCtx).readTimeoutMillis <
      (mkServer Ctx.sigCtx).writeTimeoutMillis := by
  refine ⟨?_, rfl, rfl, rfl, rfl, by norm_num [mkServer]⟩
  cases race with
  | listenerErr e => rw [run_listener_err_eq fail sdErr srvShutErr e hok]
  | interrupted => rw [run_interrupted_eq fail sdErr srvShutErr hok]

/-- Witness for the server-configuration theorem. -/
theorem server_base_ctx_and_timeouts_witness :
    (∀ p, noErr p = none) ∧
    ((run noErr noErr none RaceOutcome.interrupted).srv =
        some (mkServer Ctx.sigCtx) ∧
     (mkServer Ctx.sigCtx).baseCtx = Ctx.sigCtx ∧
     (mkServer Ctx.sigCtx).addr = ":8080" ∧
     (mkServer Ctx.sigCtx).readTimeoutMillis = 1000 ∧
     (mkServer Ctx.sigCtx).writeTimeoutMillis = 10000 ∧
     (mkServer Ctx.sigCtx).readTimeoutMillis <
       (mkServer Ctx.sigCtx).writeTimeoutMillis) :=
  ⟨fun _ => rfl,
   server_base_ctx_and_timeouts noErr noErr none RaceOutcome.interrupted
     (fun _ => rfl)⟩

/-- Claim C9: setupOTelSDK returns a non-nil shutdown function on every
path; after a failed setup the registry it captured is empty, so calling it
performs zero operations and returns nil, and a caller invoking it
unconditionally cannot cause a double teardown. -/
theorem setup_failed_shutdown_noop (c cc : Ctx)
    (fail sdErr : Prov → Option String)
    (hfail : (setupOTelSDK c fail sdErr).retErr ≠ []) :
    (∀ g h : Prov → Option String, (setupOTelSDK c g h).shutdownNil = false) ∧
    (setupOTelSDK c fail sdErr).funcs = [] ∧
    (shutdown sdErr (setupOTelSDK c fail sdErr).funcs cc).events = [] ∧
    (shutdown sdErr (setupOTelSDK c fail sdErr).funcs cc).err = [] := by
  have hfuncs := setup_fail_funcs_nil c fail sdErr hfail
  refine ⟨fun g h => setup_shutdownNil_false c g h, hfuncs, ?_, ?_⟩ <;>
    rw [hfuncs, shutdown_eq] <;> rfl

/-- Witness for the failed-setup no-op shutdown theorem: the tracer factory
fails, and the shutdown function returned alongside the error does
nothing. -/
theorem setup_failed_shutdown_noop_witness :
    (setupOTelSDK Ctx.sigCtx failTracerOnly noErr).retErr ≠ [] ∧
    ((∀ g h : Prov → Option String,
        (setupOTelSDK Ctx.sigCtx g h).shutdownNil = false) ∧
     (setupOTelSDK Ctx.sigCtx failTracerOnly noErr).funcs = [] ∧
     (shutdown noErr (setupOTelSDK Ctx.sigCtx failTracerOnly noErr).funcs
        Ctx.background).events = [] ∧
     (shutdown noErr (setupOTelSDK Ctx.sigCtx failTracerOnly noErr).funcs
        Ctx.background).err = []) :=
  ⟨by decide,
   setup_failed_shutdown_noop Ctx.sigCtx Ctx.background failTracerOnly noErr
     (by decide)⟩

/-- Claim C10: on every exit path of run after a successful setup, the
telemetry drain happens, and the drain, the graceful server shutdown and
every shutdown operation invoked by the drain receive the fresh background
context, never the interrupt-derived cancellation context. -/
theorem run_cleanup_uses_background_ctx (fail sdErr : Prov → Option String)
    (srvShutErr : Option String) (race : RaceOutcome)
    (hok : ∀ p, fail p = none) :
    Event.drainCall Ctx.background ∈
      (run fail sdErr srvShutErr race).events ∧
    (∀ c, Event.drainCall c ∈ (run fail sdErr srvShutErr race).events →
      c = Ctx.background) ∧
    (∀ c, Event.srvShutdownCall c ∈ (run fail sdErr srvShutErr race).events →
      c = Ctx.background) ∧
    (∀ p c, Event.shutdownCall p c ∈ (run fail sdErr srvShutErr race).events →
      c = Ctx.background) := by
  cases race with
  | listenerErr e =>
      rw [run_listener_err_eq fail sdErr srvShutErr e hok]
      refine ⟨?_, ?_, ?_, ?_⟩ <;> dsimp only <;> decide
  | interrupted =>
      rw [run_interrupted_eq fail sdErr srvShutErr hok]
      refine ⟨?_, ?_, ?_, ?_⟩ <;> dsimp only <;> decide

/-- Witness for the background-context theorem on the interrupt path. -/
theorem run_cleanup_uses_background_ctx_witness :
    (∀ p, noErr p = none) ∧
    (Event.drainCall Ctx.background ∈
       (run noErr noErr none RaceOutcome.interrupted).events ∧
     (∀ c, Event.drainCall c ∈
        (run noErr noErr none RaceOutcome.interrupted).events →
        c = Ctx.background) ∧
     (∀ c, Event.srvShutdownCall c ∈
        (run noErr noErr none RaceOutcome.interrupted).events →
        c = Ctx.background) ∧
     (∀ p c, Event.shutdownCall p c ∈
        (run noErr noErr none RaceOutcome.interrupted).events →
        c = Ctx.background)) :=
  ⟨fun _ => rfl,
   run_cleanup_uses_background_ctx noErr noErr none RaceOutcome.interrupted
     (fun _ => rfl)⟩

end OtelDice
